import Mathlib

/-!
Shallow embedding of the mcp-otel repository: a conversational orchestrator
(src/agent.ts, src/index.ts) talking to two MCP worker servers
(src/servers/calculator.ts, src/servers/fetch.ts), with OpenTelemetry trace
context smuggled through the _meta extensibility field of each tool call.

Effectful TypeScript is embedded as pure functions: span lifecycle activity
becomes an explicit event log, fallible operations return Except, the
network and the language model become oracle parameters.
-/

namespace McpOtel

/-- Identity of a span as carried by OpenTelemetry: 128-bit traceId,
64-bit spanId, a flags bitfield and the isRemote marker. -/
structure SpanContext where
  traceId : Nat
  spanId : Nat
  traceFlags : Nat
  isRemote : Bool
deriving DecidableEq, Repr

/-- Span record as the agent sees it: its own context plus an optional
parent span id, mirroring the parent link of an OpenTelemetry span. -/
structure Span where
  name : String
  ctx : SpanContext
  parentSpanId : Option Nat
deriving DecidableEq, Repr

/-- Trace context literal built in ClaudeAgent.handleToolUse from the
dispatch span (agent.ts): the fields are taken from span.spanContext(),
the own identity of the span, and isRemote is set to false. -/
def encodeTraceContext (sc : SpanContext) : SpanContext :=
  { traceId := sc.traceId, spanId := sc.spanId,
    traceFlags := sc.traceFlags, isRemote := false }

/-- Encoding step applied to a live span: reads the identity of the span
itself, not of its parent. -/
def encodeSpan (s : Span) : SpanContext :=
  encodeTraceContext s.ctx

/-- OpenTelemetry trace.wrapSpanContext as used by both workers: wraps the
received span context, unchanged, as a non-recording parent handle. -/
def wrapSpanContext (tc : SpanContext) : SpanContext := tc

/-- Child span context creation: a span started under a parent context
inherits the traceId and the traceFlags of the parent and gets a fresh
spanId; it is local, not remote. -/
def childCtx (parent : SpanContext) (freshSpanId : Nat) : SpanContext :=
  { traceId := parent.traceId, spanId := freshSpanId,
    traceFlags := parent.traceFlags, isRemote := false }

/-- Root span context creation: a span started with no parent opens a new
trace (sampled flags), as the chat.session span does in connect(). -/
def rootCtx (freshTraceId freshSpanId : Nat) : SpanContext :=
  { traceId := freshTraceId, spanId := freshSpanId,
    traceFlags := 1, isRemote := false }

/-- Lifecycle events recorded, in program order, by the embedded
operations; spans are identified by name, each name being started at most
once per operation run. -/
inductive SpanEvent where
  | started (name : String)
  | ended (name : String)
deriving DecidableEq, Repr

/-- Text content block of a tool result. -/
structure TextContent where
  text : String
deriving DecidableEq, Repr

/-- Result payload of an MCP tool call: an ordered list of content
blocks (the repository only ever produces text blocks). -/
structure CallToolResult where
  content : List TextContent
deriving DecidableEq, Repr

instance {ε α : Type} [DecidableEq ε] [DecidableEq α] :
    DecidableEq (Except ε α) := fun a b =>
  match a, b with
  | .ok x, .ok y =>
      if h : x = y then .isTrue (by rw [h]) else
        .isFalse (by intro hc; cases hc; exact h rfl)
  | .error x, .error y =>
      if h : x = y then .isTrue (by rw [h]) else
        .isFalse (by intro hc; cases hc; exact h rfl)
  | .ok _, .error _ => .isFalse (by intro hc; cases hc)
  | .error _, .ok _ => .isFalse (by intro hc; cases hc)

/-- Arithmetic operations accepted by the calculator tool (the zod enum in
calculator.ts). -/
inductive CalcOp where
  | add
  | subtract
  | multiply
  | divide
deriving DecidableEq, Repr

/-- Arithmetic core of the calculator tool handler: the switch statement of
calculator.ts, with division by zero raising the error that the handler
throws. -/
def calcCompute (op : CalcOp) (a b : ℚ) : Except String ℚ :=
  match op with
  | .add => .ok (a + b)
  | .subtract => .ok (a - b)
  | .multiply => .ok (a * b)
  | .divide => if b = 0 then .error "Division by zero" else .ok (a / b)

/-- Calculator tool handler (calculator.ts): when no trace context is in
the call metadata it returns the text result Error: No trace context
without computing; when a context is present it reconstructs the remote
parent, runs calculator.operation inside a span that is ended in a finally
block on both outcomes, and returns the stringified result or rethrows. -/
def calculateTool (op : CalcOp) (a b : ℚ) (traceContext : Option SpanContext) :
    Except String CallToolResult × List SpanEvent :=
  match traceContext with
  | none =>
      (.ok { content := [{ text := "Error: No trace context" }] }, [])
  | some _ =>
      match calcCompute op a b with
      | .ok r =>
          (.ok { content := [{ text := toString r }] },
           [.started "calculator.operation", .ended "calculator.operation"])
      | .error e =>
          (.error e,
           [.started "calculator.operation", .ended "calculator.operation"])

/-- Untraced path of the fetch tool (handleFetch in fetch.ts): fetch the
URL, convert to markdown, no spans. The network fetch and the turndown
conversion are oracle parameters since they are external capabilities. -/
def handleFetch (fetchRes : Except String String)
    (turndown : String → Except String String) :
    Except String CallToolResult × List SpanEvent :=
  match fetchRes with
  | .error e => (.error e, [])
  | .ok html =>
      match turndown html with
      | .error e => (.error e, [])
      | .ok markdown => (.ok { content := [{ text := markdown }] }, [])

/-- Fetch tool handler (fetch.ts): without a trace context it delegates to
handleFetch; with one it starts fetch.operation (ended in a finally block),
then starts fetch.http_request, which is ended only after the fetch
succeeds, then starts fetch.markdown_conversion, which is ended only after
the conversion succeeds. A failure of the fetch or of the conversion leaves
the corresponding inner span started but never ended. -/
def fetchTool (fetchRes : Except String String)
    (turndown : String → Except String String)
    (traceContext : Option SpanContext) :
    Except String CallToolResult × List SpanEvent :=
  match traceContext with
  | none => handleFetch fetchRes turndown
  | some _ =>
      match fetchRes with
      | .error e =>
          (.error e,
           [.started "fetch.operation", .started "fetch.http_request",
            .ended "fetch.operation"])
      | .ok html =>
          match turndown html with
          | .error e =>
              (.error e,
               [.started "fetch.operation", .started "fetch.http_request",
                .ended "fetch.http_request", .started "fetch.markdown_conversion",
                .ended "fetch.operation"])
          | .ok markdown =>
              (.ok { content := [{ text := markdown }] },
               [.started "fetch.operation", .started "fetch.http_request",
                .ended "fetch.http_request", .started "fetch.markdown_conversion",
                .ended "fetch.markdown_conversion", .ended "fetch.operation"])

/-- Number of times the log starts the named span. -/
def startCount (log : List SpanEvent) (name : String) : Nat :=
  log.count (SpanEvent.started name)

/-- Number of times the log ends the named span. -/
def endCount (log : List SpanEvent) (name : String) : Nat :=
  log.count (SpanEvent.ended name)

/-- Evaluation fact: adding 2 and 3 in the calculator yields 5. -/
lemma calcCompute_add_two_three : calcCompute .add 2 3 = .ok 5 := by
  unfold calcCompute; norm_num

/-- Evaluation fact: the rational 5 stringifies as the text 5. -/
lemma toString_five : toString (5 : ℚ) = "5" := by rfl

/-- Evaluation fact: dividing by zero yields the division error. -/
lemma calcCompute_div_zero (a : ℚ) :
    calcCompute .divide a 0 = .error "Division by zero" := by
  simp [calcCompute]

/-- Arguments of a tool call as produced by the model and forwarded to the
worker (block.input in agent.ts). -/
inductive ToolArgs where
  | calcArgs (op : CalcOp) (a b : ℚ)
  | fetchArgs (url : String)
  | otherArgs (json : String)
deriving DecidableEq, Repr

/-- Content block of a model response: text or a tool invocation request. -/
inductive Block where
  | text (s : String)
  | toolUse (id name : String) (input : ToolArgs)
deriving DecidableEq, Repr

/-- Tool invocation requests of a response, in the order returned by the
model (the for loop over response.content in agent.ts). -/
def toolUses (blocks : List Block) : List (String × String × ToolArgs) :=
  blocks.filterMap fun b =>
    match b with
    | .text _ => none
    | .toolUse i n args => some (i, n, args)

/-- Concatenated text blocks of a response (the outputText extraction at
the end of ClaudeAgent.chat). -/
def textOf (blocks : List Block) : String :=
  blocks.foldl
    (fun acc b =>
      match b with
      | .text s => acc ++ s
      | .toolUse _ _ _ => acc) ""

/-- Sequential execution of the tool invocation requests of one model
response: each dispatch is awaited before the next; the first failure
aborts the remainder and propagates. Returns the outcome together with the
list of dispatches actually performed, in order. -/
def execToolUses (dispatch : String → ToolArgs → Except String String) :
    List (String × String × ToolArgs) →
      Except String Unit × List (String × String × ToolArgs)
  | [] => (.ok (), [])
  | tu :: rest =>
      match dispatch tu.2.1 tu.2.2 with
      | .error e => (.error e, [tu])
      | .ok _ =>
          let (res, log) := execToolUses dispatch rest
          (res, tu :: log)

/-- Turn orchestration loop of ClaudeAgent.chat, driven by the scripted
sequence of model responses: process the current response, dispatching its
tool invocation requests in order; while the response contained requests,
fetch the continuation response and repeat; a response without requests
ends the loop and is the final response. An exhausted script stands for a
failing model call. Returns the final response (or the propagated error)
and the dispatch log of the whole turn. -/
def chatRun (dispatch : String → ToolArgs → Except String String) :
    List (List Block) →
      Except String (List Block) × List (String × String × ToolArgs)
  | [] => (.error "Model call failed", [])
  | r :: rest =>
      let tus := toolUses r
      let (res, log) := execToolUses dispatch tus
      match res with
      | .error e => (.error e, log)
      | .ok _ =>
          if tus.isEmpty then (.ok r, log)
          else
            let (res2, log2) := chatRun dispatch rest
            (res2, log ++ log2)

/-- Tool invocation requests of a whole response script, in script order. -/
def allToolUses : List (List Block) → List (String × String × ToolArgs)
  | [] => []
  | r :: rest => toolUses r ++ allToolUses rest

/-- Behavior of one connected worker: maps the forwarded arguments and the
optional trace context from the call metadata to the call outcome and the
span log of the worker. -/
def ServerConn : Type :=
  ToolArgs → Option SpanContext → Except String CallToolResult × List SpanEvent

/-- Calculator worker connection, running the calculator tool handler. -/
def calcServer : ServerConn := fun args tc =>
  match args with
  | .calcArgs op a b => calculateTool op a b tc
  | _ => (.error "Invalid arguments", [])

/-- Fetch worker connection, running the fetch tool handler over the given
network and markdown conversion oracles. -/
def fetchServer (net : String → Except String String)
    (turndown : String → Except String String) : ServerConn := fun args tc =>
  match args with
  | .fetchArgs url => fetchTool (net url) turndown tc
  | _ => (.error "Invalid arguments", [])

/-- Lookup in the tool name to worker connection map (Map.get). -/
def lookupServer : List (String × ServerConn) → String → Option ServerConn
  | [], _ => none
  | (n, s) :: rest, name => if n = name then some s else lookupServer rest name

/-- Extraction of the result payload in ClaudeAgent.handleToolUse: the text
of the first content block when it is a text block, otherwise the JSON
rendering of the content array (which for an empty array is two brackets). -/
def resultTextOf (res : CallToolResult) : String :=
  match res.content with
  | [] => "[]"
  | c :: _ => c.text

/-- ClaudeAgent.handleToolUse: start a dispatch span under the session
context, resolve the worker by tool name (failing with the no-server error
when the name has no registration), encode the dispatch span into the call
metadata, perform the remote call, and extract the textual result; worker
failures propagate as dispatch errors. -/
def handleToolUse (toolServerMap : List (String × ServerConn))
    (active : SpanContext) (freshSpanId : Nat)
    (name : String) (args : ToolArgs) : Except String String :=
  let span := childCtx active freshSpanId
  match lookupServer toolServerMap name with
  | none => .error ("No server found for tool: " ++ name)
  | some server =>
      match (server args (some (encodeTraceContext span))).1 with
      | .error e => .error e
      | .ok res => .ok (resultTextOf res)

/-- Session-level mutable state of the agent: the root span when live
(nulled by cleanup), how many times the root span was ended, and the
conversation turn counter kept as a root span attribute. -/
structure AgentState where
  sessionSpan : Option SpanContext
  rootEndCount : Nat
  conversationTurns : Nat
deriving DecidableEq, Repr

/-- ClaudeAgent.chat for one user turn: fails fast when no session context
exists; otherwise runs the orchestration loop dispatching through the
registry under the session root context. A turn failure propagates without
touching the session state; a completed turn records the turn on the
session (attribute updates only) and returns the final text. The root span
is never ended by a turn, on either path. -/
def chatTurn (registry : List (String × ServerConn)) (st : AgentState)
    (script : List (List Block)) : Except String String × AgentState :=
  match st.sessionSpan with
  | none => (.error "Session context not initialized. Call connect() first.", st)
  | some root =>
      match chatRun (handleToolUse registry root 0) script with
      | (.error e, _) => (.error e, st)
      | (.ok final, _) =>
          (.ok (textOf final),
           { st with conversationTurns := st.conversationTurns + 1 })

/-- Interactive loop of index.ts: each input is one turn; a turn failure is
caught, reported and the loop re-prompts, so the session survives every
turn outcome. -/
def promptLoop (registry : List (String × ServerConn)) (st : AgentState) :
    List (List (List Block)) → List (Except String String) × AgentState
  | [] => ([], st)
  | script :: rest =>
      let (res, st1) := chatTurn registry st script
      let (ress, st2) := promptLoop registry st1 rest
      (res :: ress, st2)

/-- ClaudeAgent.cleanup: close every worker connection (closing is total
and idempotent at the transport), run the cleanup span, ended in a finally
block, and then end the persistent session span only when it is still
non-null, nulling it afterwards; a second invocation therefore skips the
root span entirely and raises no error. -/
def cleanup (st : AgentState) : Except String (AgentState × List SpanEvent) :=
  match st.sessionSpan with
  | some _ =>
      .ok ({ st with sessionSpan := none, rootEndCount := st.rootEndCount + 1 },
           [.started "cleanup", .ended "cleanup", .ended "chat.session"])
  | none =>
      .ok (st, [.started "cleanup", .ended "cleanup"])

/-- JavaScript Map.set on the association list representation: rebinds the
key in place when present, appends otherwise. -/
def mapSet (m : List (String × String)) (k v : String) :
    List (String × String) :=
  if m.any (fun p => p.1 == k) then
    m.map (fun p => if p.1 == k then (k, v) else p)
  else m ++ [(k, v)]

/-- Sequence of Map.set calls, in order. -/
def setAll (m : List (String × String)) :
    List (String × String) → List (String × String)
  | [] => m
  | kv :: rest => setAll (mapSet m kv.1 kv.2) rest

/-- Pairs (tool name, server name) registered by one getMcpTools pass:
every server, in connect order, contributes one pair per advertised tool. -/
def toolPairs (adv : String → List String) :
    List String → List (String × String)
  | [] => []
  | s :: rest => (adv s).map (fun t => (t, s)) ++ toolPairs adv rest

/-- Connection-phase state of the agent: the connected server names in
connect order and the tool name to server name registration map. -/
structure AgentConn where
  servers : List String
  toolServerMap : List (String × String)
deriving DecidableEq, Repr

/-- ClaudeAgent.connect: spawns and records the worker processes; it does
not touch the tool registration map, which stays empty. -/
def connectAgent (serverFiles : List String) : AgentConn :=
  { servers := serverFiles, toolServerMap := [] }

/-- ClaudeAgent.getMcpTools registration effect: queries every connected
server for its advertised tools and performs a map set of (tool name,
server) for each of them, in order; called on every chat turn. -/
def getMcpTools (adv : String → List String) (st : AgentConn) : AgentConn :=
  { st with toolServerMap := setAll st.toolServerMap (toolPairs adv st.servers) }

/-- Advertised tool sets of the two workers of the repository. -/
def stdAdv : String → List String := fun s =>
  if s = "calculator" then ["calculate"]
  else if s = "fetch" then ["fetch"]
  else []

/-- Root span context of a session: the chat.session span started without
a parent in ClaudeAgent.connect. -/
def sessionRoot (tid : Nat) : SpanContext := rootCtx tid 0

/-- Worker-side operation span for one dispatch: started under the parent
obtained by decoding the encoded trace context of the dispatch span. -/
def workerSpanFor (dispatchSpan : SpanContext) (sid : Nat) : SpanContext :=
  childCtx (wrapSpanContext (encodeTraceContext dispatchSpan)) sid

/-- Spans of the k tool dispatches of one turn: each dispatch contributes
the agent-side mcp_tool span, started under the session context because
handleToolUse re-enters the session context, and the worker-side span,
started under the decoded remote parent. -/
def dispatchSpans (session : SpanContext) :
    Nat → Nat → List (String × SpanContext)
  | _, 0 => []
  | base, k + 1 =>
      ("mcp_tool", childCtx session base) ::
      ("worker.operation", workerSpanFor (childCtx session base) (base + 1)) ::
      dispatchSpans session (base + 2) k

/-- Per-server tool listing spans inside getMcpTools, one per connected
server, each started under the active mcp.list_tools span. -/
def serverListSpans (listToolsSpan : SpanContext) :
    Nat → Nat → List (String × SpanContext)
  | _, 0 => []
  | base, n + 1 =>
      ("mcp.list_tools.server", childCtx listToolsSpan base) ::
      serverListSpans listToolsSpan (base + 1) n

/-- Spans created by one chat turn with k tool dispatches over numServers
connected servers: chat.turn and mcp.list_tools are started under the
session context re-entered by chat and getMcpTools, the per-server spans
under mcp.list_tools, chat.model_call under chat.turn, and the dispatch
spans as in dispatchSpans. -/
def turnSpans (session : SpanContext) (base numServers k : Nat) :
    List (String × SpanContext) :=
  ("chat.turn", childCtx session base) ::
  ("mcp.list_tools", childCtx session (base + 1)) ::
  (serverListSpans (childCtx session (base + 1)) (base + 2) numServers ++
    ("chat.model_call", childCtx (childCtx session base) (base + 2 + numServers)) ::
    dispatchSpans session (base + 3 + numServers) k)

/-- Spans of a sequence of turns, the list giving the number of tool
dispatches of each turn. -/
def turnsSpans (session : SpanContext) (numServers : Nat) :
    Nat → List Nat → List (String × SpanContext)
  | _, [] => []
  | base, k :: rest =>
      turnSpans session base numServers k ++
      turnsSpans session numServers (base + 3 + numServers + 2 * k) rest

/-- All spans created while a session is active: the chat.session root,
the connect span started under the session context, and the spans of every
turn. -/
def sessionSpans (tid numServers : Nat) (ks : List Nat) :
    List (String × SpanContext) :=
  ("chat.session", sessionRoot tid) ::
  ("connect", childCtx (sessionRoot tid) 1) ::
  turnsSpans (sessionRoot tid) numServers 2 ks

/-- Tool registry of the repository: the calculator and the fetch worker,
keyed by their advertised tool names. -/
def stdRegistry (net : String → Except String String)
    (turndown : String → Except String String) :
    List (String × ServerConn) :=
  [("calculate", calcServer), ("fetch", fetchServer net turndown)]

/-- Agent state right after connect: live root span, root never ended, no
turns recorded. -/
def stConnected : AgentState :=
  { sessionSpan := some (sessionRoot 1), rootEndCount := 0,
    conversationTurns := 0 }

/-- Model response script whose single turn asks for a division by zero. -/
def calcDivideScript : List (List Block) :=
  [[Block.toolUse "toolu_1" "calculate" (.calcArgs .divide 1 0)]]

/-- Model response script that asks for 2 plus 3 and then finishes with a
text-only response. -/
def calcAddScript : List (List Block) :=
  [[Block.toolUse "toolu_2" "calculate" (.calcArgs .add 2 3)],
   [Block.text "The result is 5"]]

/-- Model response script whose single turn asks for an unregistered
tool. -/
def unknownToolScript : List (List Block) :=
  [[Block.toolUse "toolu_3" "weather" (.otherArgs "x")]]

/-- C2: decoding the trace context produced by encoding a live span yields
a context whose traceId, spanId and traceFlags are those of the span
itself, not of its parent. -/
theorem decode_encode_roundtrip (s : Span) :
    (wrapSpanContext (encodeSpan s)).traceId = s.ctx.traceId ∧
    (wrapSpanContext (encodeSpan s)).spanId = s.ctx.spanId ∧
    (wrapSpanContext (encodeSpan s)).traceFlags = s.ctx.traceFlags :=
  ⟨rfl, rfl, rfl⟩

/-- C1 counterexample: the calculator invoked as calculate(add, 2, 3)
answers the text 5 when a trace context is present but the text
Error: No trace context when it is absent, so the result is not the same
in both cases. -/
theorem calculate_not_context_neutral :
    (calculateTool .add 2 3 (some (rootCtx 1 2))).1 =
      .ok { content := [{ text := "5" }] } ∧
    (calculateTool .add 2 3 none).1 =
      .ok { content := [{ text := "Error: No trace context" }] } ∧
    (calculateTool .add 2 3 (some (rootCtx 1 2))).1 ≠
      (calculateTool .add 2 3 none).1 := by
  have h2 : (calculateTool .add 2 3 (some (rootCtx 1 2))).1 =
      .ok { content := [{ text := "5" }] } := by
    simp [calculateTool, calcCompute_add_two_three, toString_five]
  refine ⟨h2, rfl, ?_⟩
  rw [h2]
  decide

/-- C1 amended: the fetch tool produces the same result with or without a
present trace context, for every network and conversion outcome; the
calculate tool does not: with a context calculate(add, 2, 3) returns the
text 5, without one it returns the text Error: No trace context instead of
computing. -/
theorem tracing_neutrality_amended :
    (∀ (fetchRes : Except String String)
       (turndown : String → Except String String) (tc : SpanContext),
       (fetchTool fetchRes turndown (some tc)).1 =
         (fetchTool fetchRes turndown none).1) ∧
    (calculateTool .add 2 3 (some (rootCtx 1 2))).1 =
      .ok { content := [{ text := "5" }] } ∧
    (calculateTool .add 2 3 none).1 =
      .ok { content := [{ text := "Error: No trace context" }] } := by
  refine ⟨?_, ?_, rfl⟩
  · intro f td tc
    cases f with
    | error e => rfl
    | ok html =>
        cases htd : td html with
        | error e => simp [fetchTool, handleFetch, htd]
        | ok md => simp [fetchTool, handleFetch, htd]
  · simp [calculateTool, calcCompute_add_two_three, toString_five]

/-- C9 counterexample: the trace context received by a worker is the one
the agent encodes from its dispatch span, which carries isRemote false,
and decoding preserves every field, so the decoded parent handle is not
marked remote. -/
theorem decoded_parent_not_remote :
    (wrapSpanContext (encodeTraceContext (childCtx (sessionRoot 7) 3))).isRemote
      = false := rfl

/-- C9 amended: decoding a received trace context yields a parent handle
with the same traceId, spanId and traceFlags and with isRemote false, the
value the agent wrote when encoding; the local span of the worker is
parented to this handle and inherits its traceId. -/
theorem decode_yields_nonremote_parent (sc : SpanContext) (sid : Nat) :
    wrapSpanContext (encodeTraceContext sc) =
      { traceId := sc.traceId, spanId := sc.spanId,
        traceFlags := sc.traceFlags, isRemote := false } ∧
    (childCtx (wrapSpanContext (encodeTraceContext sc)) sid).traceId =
      sc.traceId :=
  ⟨rfl, rfl⟩

/-- C3: evaluated at a failing network fetch with a trace context present,
the fetch tool starts fetch.http_request once but never ends it, while the
outer fetch.operation span is started and ended exactly once; a started
span is therefore left open on the error path. -/
theorem fetch_http_span_leak :
    startCount (fetchTool (.error "ECONNREFUSED") (fun s => .ok s)
      (some (rootCtx 1 2))).2 "fetch.http_request" = 1 ∧
    endCount (fetchTool (.error "ECONNREFUSED") (fun s => .ok s)
      (some (rootCtx 1 2))).2 "fetch.http_request" = 0 ∧
    startCount (fetchTool (.error "ECONNREFUSED") (fun s => .ok s)
      (some (rootCtx 1 2))).2 "fetch.operation" = 1 ∧
    endCount (fetchTool (.error "ECONNREFUSED") (fun s => .ok s)
      (some (rootCtx 1 2))).2 "fetch.operation" = 1 := by
  decide

/-- C10 counterexample: at the end of connect the registration map is
empty, and the first getMcpTools pass of the first turn adds the two tool
entries, so an operation performed during the session does change the map
after the connect phase completed. -/
theorem registration_map_changes_after_connect :
    (connectAgent ["calculator", "fetch"]).toolServerMap = [] ∧
    (getMcpTools stdAdv (connectAgent ["calculator", "fetch"])).toolServerMap
      = [("calculate", "calculator"), ("fetch", "fetch")] ∧
    (getMcpTools stdAdv (connectAgent ["calculator", "fetch"])).toolServerMap
      ≠ (connectAgent ["calculator", "fetch"]).toolServerMap := by
  decide

/-- C10 amended: connect leaves the registration map empty; the map is
built by the first getMcpTools pass, and a second pass with the same
advertised tool sets leaves the map unchanged. -/
theorem registration_map_amended :
    (∀ files, (connectAgent files).toolServerMap = []) ∧
    getMcpTools stdAdv (getMcpTools stdAdv (connectAgent ["calculator", "fetch"]))
      = getMcpTools stdAdv (connectAgent ["calculator", "fetch"]) :=
  ⟨fun _ => rfl, by decide⟩

lemma childCtx_traceId (p : SpanContext) (sid : Nat) :
    (childCtx p sid).traceId = p.traceId := rfl

lemma mem_dispatchSpans_traceId (session : SpanContext) :
    ∀ (k base : Nat) (p : String × SpanContext),
      p ∈ dispatchSpans session base k → p.2.traceId = session.traceId := by
  intro k
  induction k with
  | zero => intro base p hp; simp [dispatchSpans] at hp
  | succ n ih =>
      intro base p hp
      simp only [dispatchSpans, List.mem_cons] at hp
      rcases hp with h | h | h
      · subst h; rfl
      · subst h; rfl
      · exact ih _ _ h

lemma mem_serverListSpans_traceId (listToolsSpan : SpanContext) :
    ∀ (n base : Nat) (p : String × SpanContext),
      p ∈ serverListSpans listToolsSpan base n →
        p.2.traceId = listToolsSpan.traceId := by
  intro n
  induction n with
  | zero => intro base p hp; simp [serverListSpans] at hp
  | succ m ih =>
      intro base p hp
      simp only [serverListSpans, List.mem_cons] at hp
      rcases hp with h | h
      · subst h; rfl
      · exact ih _ _ h

lemma mem_turnSpans_traceId (session : SpanContext) (base numServers k : Nat)
    (p : String × SpanContext) (hp : p ∈ turnSpans session base numServers k) :
    p.2.traceId = session.traceId := by
  simp only [turnSpans, List.mem_cons, List.mem_append] at hp
  rcases hp with h | h | (h | h | h)
  · subst h; rfl
  · subst h; rfl
  · exact (mem_serverListSpans_traceId _ _ _ _ h).trans rfl
  · subst h; rfl
  · exact mem_dispatchSpans_traceId _ _ _ _ h

lemma mem_turnsSpans_traceId (session : SpanContext) (numServers : Nat) :
    ∀ (ks : List Nat) (base : Nat) (p : String × SpanContext),
      p ∈ turnsSpans session numServers base ks →
        p.2.traceId = session.traceId := by
  intro ks
  induction ks with
  | nil => intro base p hp; simp [turnsSpans] at hp
  | cons k rest ih =>
      intro base p hp
      simp only [turnsSpans, List.mem_append] at hp
      rcases hp with h | h
      · exact mem_turnSpans_traceId _ _ _ _ _ h
      · exact ih _ _ h

/-- C4: every span created while a session is active, namely the root, the
connect span, and the chat.turn, mcp.list_tools, per-server listing,
chat.model_call, tool dispatch and worker-side spans of every turn,
carries the traceId of the chat.session root span. -/
theorem session_spans_share_root_traceId (tid numServers : Nat)
    (ks : List Nat) (p : String × SpanContext)
    (hp : p ∈ sessionSpans tid numServers ks) :
    p.2.traceId = (sessionRoot tid).traceId := by
  simp only [sessionSpans, List.mem_cons] at hp
  rcases hp with h | h | h
  · subst h; rfl
  · subst h; rfl
  · exact mem_turnsSpans_traceId _ _ _ _ _ h

/-- C4 witness: the connect span of the concrete session with traceId 7,
two servers and one single-dispatch turn is among the session spans and
carries the root traceId. -/
theorem session_spans_share_root_traceId_witness :
    (("connect", childCtx (sessionRoot 7) 1) ∈ sessionSpans 7 2 [1]) ∧
    (childCtx (sessionRoot 7) 1).traceId = (sessionRoot 7).traceId :=
  ⟨by decide,
   session_spans_share_root_traceId 7 2 [1]
     ("connect", childCtx (sessionRoot 7) 1) (by decide)⟩

lemma execToolUses_all_ok (dispatch : String → ToolArgs → Except String String)
    (h : ∀ n a, ∃ s, dispatch n a = Except.ok s) :
    ∀ tus, execToolUses dispatch tus = (.ok (), tus) := by
  intro tus
  induction tus with
  | nil => rfl
  | cons tu rest ih =>
      obtain ⟨s, hs⟩ := h tu.2.1 tu.2.2
      simp [execToolUses, hs, ih]

/-- C5: for a model response script made of responses that each request at
least one tool, followed by a final response requesting none, and a
dispatch capability that succeeds, the orchestration loop performs exactly
the requested dispatches, in the order the blocks were returned, each
completed before the next, and then returns the final response. -/
theorem chat_dispatches_in_order
    (dispatch : String → ToolArgs → Except String String)
    (rs : List (List Block)) (final : List Block)
    (hdisp : ∀ n a, ∃ s, dispatch n a = Except.ok s)
    (hrs : ∀ r ∈ rs, toolUses r ≠ []) (hfinal : toolUses final = []) :
    chatRun dispatch (rs ++ [final]) =
      (.ok final, allToolUses (rs ++ [final])) := by
  induction rs with
  | nil =>
      simp [chatRun, execToolUses_all_ok dispatch hdisp, hfinal, allToolUses]
  | cons r rest ih =>
      have hr : toolUses r ≠ [] := hrs r (List.mem_cons_self r rest)
      have ih' := ih fun x hx => hrs x (List.mem_cons_of_mem r hx)
      simp [chatRun, execToolUses_all_ok dispatch hdisp, ih', allToolUses,
        List.isEmpty_iff, hr]

/-- C5 witness: a concrete script with one tool request then a text-only
response, under an always succeeding dispatch, performs exactly that one
dispatch and returns the text response. -/
theorem chat_dispatches_in_order_witness :
    chatRun (fun _ _ => .ok "5")
      ([[Block.toolUse "t1" "calculate" (.calcArgs .add 2 3)]] ++
        [[Block.text "done"]]) =
      (.ok [Block.text "done"],
       allToolUses ([[Block.toolUse "t1" "calculate" (.calcArgs .add 2 3)]] ++
         [[Block.text "done"]])) :=
  chat_dispatches_in_order (fun _ _ => .ok "5")
    [[Block.toolUse "t1" "calculate" (.calcArgs .add 2 3)]]
    [Block.text "done"] (fun _ _ => ⟨"5", rfl⟩)
    (by decide) (by decide)

lemma handleToolUse_div_zero (net turndown : String → Except String String)
    (root : SpanContext) (n : Nat) :
    handleToolUse (stdRegistry net turndown) root n "calculate"
      (.calcArgs .divide 1 0) = .error "Division by zero" := by
  simp [handleToolUse, stdRegistry, lookupServer, calcServer, calculateTool,
    calcCompute_div_zero]

lemma handleToolUse_add_two_three (net turndown : String → Except String String)
    (root : SpanContext) (n : Nat) :
    handleToolUse (stdRegistry net turndown) root n "calculate"
      (.calcArgs .add 2 3) = .ok "5" := by
  simp [handleToolUse, stdRegistry, lookupServer, calcServer, calculateTool,
    calcCompute_add_two_three, toString_five, resultTextOf]

lemma handleToolUse_unknown (net turndown : String → Except String String)
    (root : SpanContext) (n : Nat) (args : ToolArgs) :
    handleToolUse (stdRegistry net turndown) root n "weather" args =
      .error "No server found for tool: weather" := by
  simp [handleToolUse, stdRegistry, lookupServer]

lemma chatTurn_add_succeeds (net turndown : String → Except String String)
    (st : AgentState) (h : st.sessionSpan = some (sessionRoot 1)) :
    chatTurn (stdRegistry net turndown) st calcAddScript =
      (.ok "The result is 5",
       { st with conversationTurns := st.conversationTurns + 1 }) := by
  simp [chatTurn, h, calcAddScript, chatRun, execToolUses, toolUses,
    handleToolUse_add_two_three, textOf]

/-- C6: the turn asking for a division by zero fails with the division
error while leaving the session state untouched, in particular the root
span open and never ended, and the following turn in the same session
still succeeds. -/
theorem divide_error_fails_turn_session_survives
    (net turndown : String → Except String String) :
    promptLoop (stdRegistry net turndown) stConnected
      [calcDivideScript, calcAddScript] =
      ([.error "Division by zero", .ok "The result is 5"],
       { stConnected with conversationTurns := 1 }) := by
  have h1 : chatTurn (stdRegistry net turndown) stConnected calcDivideScript =
      (.error "Division by zero", stConnected) := by
    simp [chatTurn, stConnected, calcDivideScript, chatRun, execToolUses,
      toolUses, handleToolUse_div_zero]
  have h2 := chatTurn_add_succeeds net turndown stConnected rfl
  simp only [promptLoop, h1, h2]
  simp [stConnected]

/-- C7: dispatching a tool name with no registration fails the turn with
the no-server-found error, leaves the session state untouched with its
root span open, and the following turn in the same session still
succeeds. -/
theorem unknown_tool_fails_turn_session_survives
    (net turndown : String → Except String String) :
    promptLoop (stdRegistry net turndown) stConnected
      [unknownToolScript, calcAddScript] =
      ([.error "No server found for tool: weather", .ok "The result is 5"],
       { stConnected with conversationTurns := 1 }) := by
  have h1 : chatTurn (stdRegistry net turndown) stConnected unknownToolScript =
      (.error "No server found for tool: weather", stConnected) := by
    simp [chatTurn, stConnected, unknownToolScript, chatRun, execToolUses,
      toolUses, handleToolUse_unknown]
  have h2 := chatTurn_add_succeeds net turndown stConnected rfl
  simp only [promptLoop, h1, h2]
  simp [stConnected]

/-- C8: from any state with a live root span, the first cleanup ends the
chat.session root span exactly once and nulls it, and the second cleanup
raises no error, emits no further end of the root span and leaves the
state unchanged. -/
theorem cleanup_twice_ends_root_once (st : AgentState) (c : SpanContext)
    (h : st.sessionSpan = some c) :
    ∃ st1 ev1 ev2,
      cleanup st = .ok (st1, ev1) ∧
      cleanup st1 = .ok (st1, ev2) ∧
      endCount ev1 "chat.session" = 1 ∧
      endCount ev2 "chat.session" = 0 ∧
      st1.rootEndCount = st.rootEndCount + 1 ∧
      st1.sessionSpan = none := by
  refine ⟨{ st with sessionSpan := none, rootEndCount := st.rootEndCount + 1 },
    [.started "cleanup", .ended "cleanup", .ended "chat.session"],
    [.started "cleanup", .ended "cleanup"], ?_, ?_, ?_, ?_, rfl, rfl⟩
  · simp [cleanup, h]
  · simp [cleanup]
  · decide
  · decide

/-- C8 witness: the guarantee of cleanup applied to the concrete connected
state. -/
theorem cleanup_twice_ends_root_once_witness :
    ∃ st1 ev1 ev2,
      cleanup stConnected = .ok (st1, ev1) ∧
      cleanup st1 = .ok (st1, ev2) ∧
      endCount ev1 "chat.session" = 1 ∧
      endCount ev2 "chat.session" = 0 ∧
      st1.rootEndCount = stConnected.rootEndCount + 1 ∧
      st1.sessionSpan = none :=
  cleanup_twice_ends_root_once stConnected (sessionRoot 1) rfl

end McpOtel
